import Mathlib

/-!
Verification of the CRE underwriting valuation engine
(`backend/cre_underwriter.py`: `calculate_return_metrics` and
`calculate_irr`) against its natural-language specification.

Modelling conventions:
* Python floats are modelled as exact rationals (`ℚ`); every float
  operation of the engine except one is field arithmetic or an
  integer-exponent power, which are exact over `ℚ`.
* The single fractional-exponent float power (the
  `use_fractional_escalation` branch of the start-rent computation,
  `base ** years_elapsed`) is abstracted as an explicit function
  parameter `fpow : ℚ → ℚ → ℚ`; theorems about the engine hold for
  every value of this parameter, hence in particular for the float
  implementation.
* Calendar dates are modelled by their proleptic Gregorian ordinals
  (Python's `datetime.toordinal`), as integers; the engine only ever
  subtracts dates, which subtracts ordinals.
* Python `int(x)` on a float truncates toward zero; this is `pytrunc`.
* A Python `ZeroDivisionError` raised inside `calculate_return_metrics`
  is modelled by the function returning `none`; the guards appear in
  the order in which the corresponding divisions execute in the source.
-/

/-- Python `int(x)` applied to a float: truncation toward zero. -/
def pytrunc (q : ℚ) : ℤ := if q < 0 then -⌊-q⌋ else ⌊q⌋

/-- Proleptic Gregorian ordinal of January 1 of year `y` (Python
`datetime(y, 1, 1).toordinal()`), for `y ≥ 1`. -/
def yearStartOrd (y : ℤ) : ℤ :=
  365 * (y - 1) + (y - 1) / 4 - (y - 1) / 100 + (y - 1) / 400 + 1

/-- Property inputs used by the engine (`property_data` dict). -/
structure PropertyData where
  purchase_price : ℚ
deriving DecidableEq

/-- Lease inputs used by the engine (`lease_data` dict).  The two date
fields hold the ordinals of the parsed `lease_start` / `lease_end`
dates. -/
structure LeaseData where
  area_sf : ℚ
  current_annual_rent : ℚ
  escalation_rate : ℚ
  lease_start_ord : ℤ
  lease_end_ord : ℤ
  year1_starting_rent : Option ℚ
  use_fractional_escalation : Bool
deriving DecidableEq

/-- Market/financing assumptions used by the engine (`assumptions`
dict).  `valuation_year` is the year of the `valuation_date` entry;
`calculate_return_metrics` never reads it, which is exactly what the
anchor-date claims are about. -/
structure Assumptions where
  valuation_year : ℤ
  discount_rate : ℚ
  exit_cap_rate : ℚ
  renewal_probability : ℚ
  market_rent_psf : ℚ
  adjusted_market_rent_psf : Option ℚ
  market_escalation_rate : ℚ
  vacancy_months : ℚ
  tenant_improvements_psf : ℚ
  leasing_commission_year1_pct : ℚ
deriving DecidableEq

/-- The hard-coded cash-flow analysis anchor of the engine:
`cf_start_date = datetime(2026, 1, 1)`. -/
def cfStartOrd : ℤ := yearStartOrd 2026

/-- Modelled from the spec: the spec states the analysis-start date is
January 1 of the year FOLLOWING the valuation date; this definition
follows the spec's words, to be compared with the engine's
`cfStartOrd`. -/
def specAnalysisStartOrd (valuation_year : ℤ) : ℤ :=
  yearStartOrd (valuation_year + 1)

/-- Engine: `years_elapsed = (cf_start_date - lease_start_date).days / 365.25`. -/
def years_elapsed (ld : LeaseData) : ℚ :=
  ((cfStartOrd - ld.lease_start_ord : ℤ) : ℚ) / (365.25 : ℚ)

/-- Engine: the analysis-start rent `current_rent` (source lines 74–89):
the `year1_starting_rent` override if present, else the escalated base
rent, with fractional or truncated-year exponent according to
`use_fractional_escalation`. -/
def current_rent (fpow : ℚ → ℚ → ℚ) (ld : LeaseData) : ℚ :=
  match ld.year1_starting_rent with
  | some r => r
  | none =>
    if ld.use_fractional_escalation then
      ld.current_annual_rent * fpow (1 + ld.escalation_rate) (years_elapsed ld)
    else
      ld.current_annual_rent * (1 + ld.escalation_rate) ^ pytrunc (years_elapsed ld)

/-- Engine: `years_to_expiry = (lease_end_date - cf_start_date).days / 365.25`. -/
def years_to_expiry (ld : LeaseData) : ℚ :=
  ((ld.lease_end_ord - cfStartOrd : ℤ) : ℚ) / (365.25 : ℚ)

/-- Engine: `expiry_year = int(years_to_expiry) + 1`. -/
def expiry_year (ld : LeaseData) : ℤ :=
  pytrunc (years_to_expiry ld) + 1

/-- Engine: `assumptions.get('adjusted_market_rent_psf', assumptions['market_rent_psf'])`. -/
def market_rent_psf_eff (asm : Assumptions) : ℚ :=
  asm.adjusted_market_rent_psf.getD asm.market_rent_psf

/-- Engine: the potential annual rent of projection year `year`
(source lines 101–115): original-lease escalation through the expiry
year, market rent in the first post-expiry year, market escalation
afterwards. -/
def annualRent (fpow : ℚ → ℚ → ℚ) (ld : LeaseData) (asm : Assumptions) (year : ℤ) : ℚ :=
  if year ≤ expiry_year ld then
    current_rent fpow ld * (1 + ld.escalation_rate) ^ (year - 1)
  else if year = expiry_year ld + 1 then
    market_rent_psf_eff asm * ld.area_sf
  else
    market_rent_psf_eff asm * ld.area_sf *
      (1 + asm.market_escalation_rate) ^ (year - expiry_year ld - 1)

/-- Engine: vacancy loss of projection year `year` (source lines
117–125): nonzero only in the expiry year. -/
def vacancyLoss (fpow : ℚ → ℚ → ℚ) (ld : LeaseData) (asm : Assumptions) (year : ℤ) : ℚ :=
  if year = expiry_year ld then
    annualRent fpow ld asm year * ((asm.vacancy_months / 12) * (1 - asm.renewal_probability))
  else 0

/-- Engine: tenant-improvement cost of projection year `year` (source
lines 131–136). -/
def tiCosts (ld : LeaseData) (asm : Assumptions) (year : ℤ) : ℚ :=
  if year = expiry_year ld then
    asm.tenant_improvements_psf * ld.area_sf * (1 - asm.renewal_probability)
  else 0

/-- Engine: first-year leasing commission of projection year `year`
(source lines 131–137). -/
def lcYear1 (fpow : ℚ → ℚ → ℚ) (ld : LeaseData) (asm : Assumptions) (year : ℤ) : ℚ :=
  if year = expiry_year ld then
    annualRent fpow ld asm year * asm.leasing_commission_year1_pct
  else 0

/-- Engine: `total_leasing_costs = ti_costs + lc_year1`. -/
def totalLeasingCosts (fpow : ℚ → ℚ → ℚ) (ld : LeaseData) (asm : Assumptions) (year : ℤ) : ℚ :=
  tiCosts ld asm year + lcYear1 fpow ld asm year

/-- Engine: `cash_flow = noi - total_leasing_costs` where
`noi = annual_rent - vacancy_loss`. -/
def cashFlow (fpow : ℚ → ℚ → ℚ) (ld : LeaseData) (asm : Assumptions) (year : ℤ) : ℚ :=
  (annualRent fpow ld asm year - vacancyLoss fpow ld asm year)
    - totalLeasingCosts fpow ld asm year

/-- Engine: the list `annual_cash_flows` built by the year loop
(`for year in range(1, 11)`). -/
def annualCashFlows (fpow : ℚ → ℚ → ℚ) (ld : LeaseData) (asm : Assumptions) : List ℚ :=
  (List.range 10).map (fun i => cashFlow fpow ld asm ((i : ℤ) + 1))

/-- Engine: the list `cash_flow_pvs`, `pv = cash_flow / (1 + discount_rate) ** year`. -/
def cashFlowPvs (fpow : ℚ → ℚ → ℚ) (ld : LeaseData) (asm : Assumptions) : List ℚ :=
  (List.range 10).map
    (fun i => cashFlow fpow ld asm ((i : ℤ) + 1) / (1 + asm.discount_rate) ^ ((i : ℤ) + 1))

/-- Engine: `exit_noi`, the year-11 NOI used to size the terminal value
(source lines 150–161); note the post-expiry branch has no separate
first-market-year case, it uses the exponent `11 - expiry_year - 1`
directly. -/
def exitNoi (fpow : ℚ → ℚ → ℚ) (ld : LeaseData) (asm : Assumptions) : ℚ :=
  if (11 : ℤ) ≤ expiry_year ld then
    current_rent fpow ld * (1 + ld.escalation_rate) ^ ((11 : ℤ) - 1)
  else
    market_rent_psf_eff asm * ld.area_sf *
      (1 + asm.market_escalation_rate) ^ ((11 : ℤ) - expiry_year ld - 1)

/-- Engine: `npv_at_rate` inside `calculate_irr`: the NPV of
`-initial_investment`, the enumerated cash flows, and the terminal
value discounted at the final period. -/
def npv_at_rate (initial_investment : ℚ) (cash_flows : List ℚ) (terminal_value : ℚ)
    (rate : ℚ) : ℚ :=
  -initial_investment
    + ((cash_flows.enum.map (fun p => p.2 / (1 + rate) ^ (p.1 + 1))).sum
    + terminal_value / (1 + rate) ^ cash_flows.length)

/-- Engine: the bisection loop of `calculate_irr`.  `fuel` counts the
iterations that remain AFTER the current one, so the top-level call
uses `fuel = 999` for Python's `for _ in range(1000)`.  In the final
iteration (`fuel = 0`) the Python loop computes `mid`, possibly
returns on tolerance, otherwise falls out of the loop and returns the
same `mid * 100`; either way the result is `mid * 100`. -/
def irrGo (f : ℚ → ℚ) : ℕ → ℚ → ℚ → ℚ
  | 0, low, high => (low + high) / 2 * 100
  | fuel + 1, low, high =>
    let mid := (low + high) / 2
    let npv_mid := f mid
    if |npv_mid| < (0.0001 : ℚ) then mid * 100
    else if f low * npv_mid < 0 then irrGo f fuel low mid
    else irrGo f fuel mid high

/-- Instrumentation of `irrGo`: the list of `mid` values visited by the
bisection loop, in order.  Purely for specification; the engine does
not compute it. -/
def irrMids (f : ℚ → ℚ) : ℕ → ℚ → ℚ → List ℚ
  | 0, low, high => [(low + high) / 2]
  | fuel + 1, low, high =>
    let mid := (low + high) / 2
    let npv_mid := f mid
    if |npv_mid| < (0.0001 : ℚ) then [mid]
    else if f low * npv_mid < 0 then mid :: irrMids f fuel low mid
    else mid :: irrMids f fuel mid high

/-- Engine: `calculate_irr(initial_investment, cash_flows, terminal_value)`:
bisection on `[-0.99, 5.0]` with tolerance `0.0001` and 1000
iterations, result expressed as a percentage. -/
def calculate_irr (initial_investment : ℚ) (cash_flows : List ℚ) (terminal_value : ℚ) : ℚ :=
  irrGo (npv_at_rate initial_investment cash_flows terminal_value) 999 (-0.99 : ℚ) 5

/-- The mids visited by `calculate_irr`'s loop. -/
def calcIrrMids (initial_investment : ℚ) (cash_flows : List ℚ) (terminal_value : ℚ) : List ℚ :=
  irrMids (npv_at_rate initial_investment cash_flows terminal_value) 999 (-0.99 : ℚ) 5

/-- Engine: `net_sale_price = exit_noi / exit_cap_rate` (and
`proceeds_from_sale = net_sale_price`, no debt). -/
def netSalePrice (fpow : ℚ → ℚ → ℚ) (ld : LeaseData) (asm : Assumptions) : ℚ :=
  exitNoi fpow ld asm / asm.exit_cap_rate

/-- Engine: `pv_net_sales = proceeds_from_sale / (1 + discount_rate) ** 10`. -/
def pvNetSales (fpow : ℚ → ℚ → ℚ) (ld : LeaseData) (asm : Assumptions) : ℚ :=
  netSalePrice fpow ld asm / (1 + asm.discount_rate) ^ (10 : ℕ)

/-- Engine: `pv_cash_flow = sum(cash_flow_pvs)`. -/
def pvCashFlow (fpow : ℚ → ℚ → ℚ) (ld : LeaseData) (asm : Assumptions) : ℚ :=
  (cashFlowPvs fpow ld asm).sum

/-- Engine: `total_pv = pv_cash_flow + pv_net_sales`. -/
def totalPv (fpow : ℚ → ℚ → ℚ) (ld : LeaseData) (asm : Assumptions) : ℚ :=
  pvCashFlow fpow ld asm + pvNetSales fpow ld asm

/-- Engine: `total_return = sum(annual_cash_flows) + proceeds_from_sale - purchase_price`. -/
def totalReturn (fpow : ℚ → ℚ → ℚ) (pd : PropertyData) (ld : LeaseData)
    (asm : Assumptions) : ℚ :=
  (annualCashFlows fpow ld asm).sum + netSalePrice fpow ld asm - pd.purchase_price

/-- The record returned by `calculate_return_metrics`: exactly the 13
keys of the dict literal at source lines 189–203. -/
structure Metrics where
  annual_cash_flows : List ℚ
  cash_flow_pvs : List ℚ
  total_return : ℚ
  return_to_invest : ℚ
  pv_cash_flow : ℚ
  pv_net_sales : ℚ
  total_pv : ℚ
  npv : ℚ
  pct_pv_income : ℚ
  pct_pv_sales : ℚ
  irr : ℚ
  exit_noi : ℚ
  net_sale_price : ℚ
deriving DecidableEq

/-- Engine: `calculate_return_metrics(property_data, lease_data, assumptions)`.
Returns `none` exactly when the Python code raises `ZeroDivisionError`,
with the guards in source execution order: a zero float power base with
negative exponent in the start-rent computation, the per-year PV
division at `discount_rate = -1`, the `net_sale_price` division at
`exit_cap_rate = 0`, the `return_to_invest` division at
`purchase_price = 0`, and the PV-percentage divisions at
`total_pv = 0`.  The function never reads `valuation_year` and performs
no validation of the lease dates. -/
def calculate_return_metrics (fpow : ℚ → ℚ → ℚ) (pd : PropertyData) (ld : LeaseData)
    (asm : Assumptions) : Option Metrics :=
  if ld.year1_starting_rent = none ∧ 1 + ld.escalation_rate = 0
      ∧ ((ld.use_fractional_escalation = false ∧ pytrunc (years_elapsed ld) < 0)
        ∨ (ld.use_fractional_escalation = true ∧ years_elapsed ld < 0)) then none
  else if 1 + asm.discount_rate = 0 then none
  else if asm.exit_cap_rate = 0 then none
  else if pd.purchase_price = 0 then none
  else if totalPv fpow ld asm = 0 then none
  else
    some {
      annual_cash_flows := annualCashFlows fpow ld asm
      cash_flow_pvs := cashFlowPvs fpow ld asm
      total_return := totalReturn fpow pd ld asm
      return_to_invest := totalReturn fpow pd ld asm / pd.purchase_price
      pv_cash_flow := pvCashFlow fpow ld asm
      pv_net_sales := pvNetSales fpow ld asm
      total_pv := totalPv fpow ld asm
      npv := totalPv fpow ld asm - pd.purchase_price
      pct_pv_income := pvCashFlow fpow ld asm / totalPv fpow ld asm * 100
      pct_pv_sales := pvNetSales fpow ld asm / totalPv fpow ld asm * 100
      irr := calculate_irr pd.purchase_price (annualCashFlows fpow ld asm)
        (netSalePrice fpow ld asm)
      exit_noi := exitNoi fpow ld asm
      net_sale_price := netSalePrice fpow ld asm
    }

/-!
Helper lemmas and shared concrete inputs.  The `Rat` arithmetic
operations are `@[irreducible]` in the ambient library; they are
restored to the default transparency locally so that concrete engine
runs can be evaluated by `decide`.
-/

attribute [local semireducible] Rat.mul Rat.add Rat.sub Rat.inv Rat.ofScientific

/-- Truncation toward zero agrees with the floor on nonnegative
arguments. -/
theorem pytrunc_eq_floor (q : ℚ) (h : 0 ≤ q) : pytrunc q = ⌊q⌋ := by
  unfold pytrunc
  rw [if_neg (not_lt.2 h)]

/-- Truncation toward zero is the ceiling on negative arguments. -/
theorem pytrunc_eq_ceil (q : ℚ) (h : q < 0) : pytrunc q = ⌈q⌉ := by
  unfold pytrunc
  rw [if_pos h, Int.floor_neg, neg_neg]

/-- Truncation of a rational below `-1` stays at or below `-1`. -/
theorem pytrunc_le_neg_one (q : ℚ) (h : q < -1) : pytrunc q ≤ -1 := by
  rw [pytrunc_eq_ceil q (h.trans (by norm_num))]
  exact Int.ceil_le.2 (by exact_mod_cast h.le)

/-- The first midpoint is always among the visited midpoints of the
bisection loop. -/
theorem mid_mem_irrMids (f : ℚ → ℚ) (n : ℕ) (low high : ℚ) :
    (low + high) / 2 ∈ irrMids f n low high := by
  cases n with
  | zero => simp [irrMids]
  | succ m =>
    simp only [irrMids]
    split
    · simp
    · split <;> exact List.mem_cons_self _ _

/-- The visited midpoints list is never empty. -/
theorem irrMids_ne_nil (f : ℚ → ℚ) (n : ℕ) (low high : ℚ) :
    irrMids f n low high ≠ [] := by
  intro hnil
  have := mid_mem_irrMids f n low high
  rw [hnil] at this
  exact List.not_mem_nil _ this

/-- The bisection loop visits at most `n + 1` midpoints. -/
theorem irrMids_length_le (f : ℚ → ℚ) :
    ∀ n low high, (irrMids f n low high).length ≤ n + 1 := by
  intro n
  induction n with
  | zero => intro low high; simp [irrMids]
  | succ m ih =>
    intro low high
    simp only [irrMids]
    split
    · simp
    · split
      · simpa using Nat.succ_le_succ (ih _ _)
      · simpa using Nat.succ_le_succ (ih _ _)

/-- Auxiliary list fact: consing onto a nonempty list does not change
its optional last element. -/
theorem getLast?_cons_of_ne_nil {α : Type} (a : α) {l : List α} (h : l ≠ []) :
    (a :: l).getLast? = l.getLast? := by
  cases l with
  | nil => exact absurd rfl h
  | cons b t => rfl

/-- The bisection result is `mid * 100` for the first visited `mid`
meeting the tolerance if one exists, else `mid * 100` for the last
visited `mid`. -/
theorem irrGo_result_char (f : ℚ → ℚ) :
    ∀ n low high,
      ((∃ m ∈ irrMids f n low high, |f m| < (0.0001 : ℚ)) →
        ∃ m ∈ irrMids f n low high, |f m| < (0.0001 : ℚ) ∧ irrGo f n low high = m * 100) ∧
      ((∀ m ∈ irrMids f n low high, ¬ |f m| < (0.0001 : ℚ)) →
        irrGo f n low high = ((irrMids f n low high).getLast?.getD 0) * 100) := by
  intro n
  induction n with
  | zero =>
    intro low high
    constructor
    · intro ⟨m, hm, htol⟩
      simp only [irrMids, List.mem_singleton] at hm
      exact ⟨m, by simp [irrMids, hm], htol, by simp [irrGo, hm]⟩
    · intro _
      simp [irrGo, irrMids]
  | succ k ih =>
    intro low high
    by_cases htol : |f ((low + high) / 2)| < (0.0001 : ℚ)
    · constructor
      · intro _
        refine ⟨(low + high) / 2, ?_, htol, ?_⟩
        · simp [irrMids, htol]
        · simp [irrGo, htol]
      · intro hall
        exact absurd htol (hall _ (mid_mem_irrMids f (k + 1) low high))
    · have hmids : irrMids f (k + 1) low high =
          (low + high) / 2 ::
            (if f low * f ((low + high) / 2) < 0
              then irrMids f k low ((low + high) / 2)
              else irrMids f k ((low + high) / 2) high) := by
        simp only [irrMids, if_neg htol]
        split <;> rfl
      have hgo : irrGo f (k + 1) low high =
          (if f low * f ((low + high) / 2) < 0
            then irrGo f k low ((low + high) / 2)
            else irrGo f k ((low + high) / 2) high) := by
        simp only [irrGo, if_neg htol]
      by_cases hbr : f low * f ((low + high) / 2) < 0
      · rw [if_pos hbr] at hmids hgo
        constructor
        · intro ⟨m, hm, hmtol⟩
          rw [hmids] at hm
          rcases List.mem_cons.1 hm with hm | hm
          · exact absurd (hm ▸ hmtol) htol
          · obtain ⟨m', hm', h1, h2⟩ := (ih low ((low + high) / 2)).1 ⟨m, hm, hmtol⟩
            exact ⟨m', by rw [hmids]; exact List.mem_cons_of_mem _ hm', h1, hgo ▸ h2⟩
        · intro hall
          rw [hmids] at hall ⊢
          rw [getLast?_cons_of_ne_nil _ (irrMids_ne_nil f k low ((low + high) / 2))]
          rw [hgo]
          exact (ih low ((low + high) / 2)).2
            (fun m hm => hall m (List.mem_cons_of_mem _ hm))
      · rw [if_neg hbr] at hmids hgo
        constructor
        · intro ⟨m, hm, hmtol⟩
          rw [hmids] at hm
          rcases List.mem_cons.1 hm with hm | hm
          · exact absurd (hm ▸ hmtol) htol
          · obtain ⟨m', hm', h1, h2⟩ := (ih ((low + high) / 2) high).1 ⟨m, hm, hmtol⟩
            exact ⟨m', by rw [hmids]; exact List.mem_cons_of_mem _ hm', h1, hgo ▸ h2⟩
        · intro hall
          rw [hmids] at hall ⊢
          rw [getLast?_cons_of_ne_nil _ (irrMids_ne_nil f k ((low + high) / 2) high)]
          rw [hgo]
          exact (ih ((low + high) / 2) high).2
            (fun m hm => hall m (List.mem_cons_of_mem _ hm))

/-- The bisection result, divided back by 100, always stays inside the
current bracket. -/
theorem irrGo_bounds (f : ℚ → ℚ) :
    ∀ n low high, low ≤ high →
      low * 100 ≤ irrGo f n low high ∧ irrGo f n low high ≤ high * 100 := by
  intro n
  induction n with
  | zero =>
    intro low high h
    constructor <;> simp only [irrGo] <;> nlinarith
  | succ k ih =>
    intro low high h
    have hmid₁ : low ≤ (low + high) / 2 := by linarith
    have hmid₂ : (low + high) / 2 ≤ high := by linarith
    simp only [irrGo]
    split
    · constructor <;> nlinarith
    · split
      · have := ih low ((low + high) / 2) hmid₁
        constructor
        · exact this.1
        · exact this.2.trans (by nlinarith)
      · have := ih ((low + high) / 2) high hmid₂
        constructor
        · exact (by nlinarith : low * 100 ≤ (low + high) / 2 * 100).trans this.1
        · exact this.2

/-!
Concrete inputs shared by the witnesses and counterexamples below.
`f0` is one arbitrary instantiation of the abstract float-power
parameter (the inputs used with it never take the fractional
escalation branch, so its value is irrelevant).
-/

/-- An arbitrary instantiation of the float-power parameter. -/
def f0 : ℚ → ℚ → ℚ := fun _ _ => 0

/-!
C2: the source `calculate_irr` contains no bracket-precondition check
and no error path at all; whatever the signs of `f(low)` and `f(high)`,
it runs the bisection loop and returns a number.
-/

/-- C2 counterexample: at `initial_investment = -1/20000`, no cash
flows and zero terminal value, the NPV is the constant `1/20000`, so
the bracket endpoints do NOT straddle a root; yet `calculate_irr`
returns the numeric value `401/2` (= 200.5, the first midpoint times
100) instead of reporting an IRR-not-found condition. -/
theorem calculate_irr_no_straddle_counterexample :
    ¬ (npv_at_rate (-1/20000) [] 0 (-0.99) * npv_at_rate (-1/20000) [] 0 5 < 0) ∧
    calculate_irr (-1/20000) [] 0 = 401/2 := by
  constructor <;> decide

/-- C2 (amended): when the NPVs at the bracket endpoints do not have
opposite signs, `calculate_irr` does not report any error condition:
it still returns a numeric value, which always lies in the bracket
`[-0.99, 5]` expressed as a percentage. -/
theorem calculate_irr_no_straddle_returns_value
    (init : ℚ) (cfs : List ℚ) (tv : ℚ)
    (h : ¬ (npv_at_rate init cfs tv (-0.99) * npv_at_rate init cfs tv 5 < 0)) :
    -99 ≤ calculate_irr init cfs tv ∧ calculate_irr init cfs tv ≤ 500 := by
  have hb := irrGo_bounds (npv_at_rate init cfs tv) 999 (-0.99) 5 (by norm_num)
  unfold calculate_irr
  constructor
  · linarith [hb.1]
  · linarith [hb.2]

/-- Witness for C2's amended theorem at a concrete non-straddling
input. -/
theorem calculate_irr_no_straddle_witness :
    ¬ (npv_at_rate (1/20000) [] 0 (-0.99) * npv_at_rate (1/20000) [] 0 5 < 0) ∧
    (-99 ≤ calculate_irr (1/20000) [] 0 ∧ calculate_irr (1/20000) [] 0 ≤ 500) :=
  ⟨by decide, calculate_irr_no_straddle_returns_value (1/20000) [] 0 (by decide)⟩

/-!
C7: the loop is capped at 1000 iterations and returns a tolerance-
meeting midpoint times 100 when one is reached; but on cap exhaustion
it returns the LAST midpoint, not the best one found, and nothing in
the return value flags the result as approximate.
-/

/-- The NPV of the stream `(-1, [-1, 1], 0)` in closed form. -/
theorem npv7_eq (r : ℚ) :
    npv_at_rate (-1) [-1, 1] 0 r = 1 - (1 + r)⁻¹ + ((1 + r)⁻¹) ^ 2 := by
  show -(-1) + ((-1) / (1 + r) ^ (0 + 1) + (1 / (1 + r) ^ (1 + 1) + 0)
      + 0 / (1 + r) ^ 2) = _
  field_simp
  ring

/-- The NPV of the stream `(-1, [-1, 1], 0)` is at least `3/4`
everywhere. -/
theorem npv7_ge (r : ℚ) : 3/4 ≤ npv_at_rate (-1) [-1, 1] 0 r := by
  rw [npv7_eq]
  nlinarith [sq_nonneg ((1 + r)⁻¹ - 1/2)]

/-- On the stream `(-1, [-1, 1], 0)` the NPV is positive everywhere,
so the bisection bracket never straddles a root, the tolerance is
never met, the `low := mid` branch is taken every time, and the loop
result has the closed form below. -/
theorem irrGo_npv7_closed :
    ∀ (n : ℕ) (low high : ℚ),
      irrGo (npv_at_rate (-1) [-1, 1] 0) n low high
        = (high - (high - low) / 2 ^ (n + 1)) * 100 := by
  intro n
  induction n with
  | zero =>
    intro low high
    simp only [irrGo]
    ring
  | succ k ih =>
    intro low high
    have h0 := npv7_ge ((low + high) / 2)
    have h1 : ¬ |npv_at_rate (-1) [-1, 1] 0 ((low + high) / 2)| < (0.0001 : ℚ) := by
      rw [not_lt, abs_of_pos (by linarith)]
      calc (0.0001 : ℚ) ≤ 3/4 := by norm_num
        _ ≤ _ := h0
    have h2 : ¬ (npv_at_rate (-1) [-1, 1] 0 low
        * npv_at_rate (-1) [-1, 1] 0 ((low + high) / 2) < 0) := by
      have ha := npv7_ge low
      push_neg
      nlinarith
    simp only [irrGo, if_neg h1, if_neg h2]
    rw [ih ((low + high) / 2) high]
    have hp : (0 : ℚ) < 2 ^ (k + 1) := by positivity
    have hs : (2 : ℚ) ^ (k + 1 + 1) = 2 ^ (k + 1) * 2 := by rw [pow_succ]
    rw [hs]
    field_simp
    ring

/-- C7 counterexample: on the stream `(-1, [-1, 1], 0)` the tolerance
is never reached; the loop runs all 1000 iterations and returns the
LAST midpoint times 100, namely `(5 - 5.99/2^1000) * 100`, even though
the very first visited midpoint `401/200` has a strictly smaller
absolute NPV — so the returned value is not the best midpoint found,
and it arrives as a plain number with no approximate-result flag. -/
theorem calculate_irr_best_mid_counterexample :
    calculate_irr (-1) [-1, 1] 0 = (5 - 599/100 / 2 ^ 1000) * 100 ∧
    (401/200 : ℚ) ∈ calcIrrMids (-1) [-1, 1] 0 ∧
    |npv_at_rate (-1) [-1, 1] 0 (401/200)| <
      |npv_at_rate (-1) [-1, 1] 0 (5 - 599/100 / 2 ^ 1000)| := by
  refine ⟨?_, ?_, ?_⟩
  · show irrGo (npv_at_rate (-1) [-1, 1] 0) 999 (-0.99) 5 = _
    rw [irrGo_npv7_closed 999 (-0.99) 5]
    norm_num
  · have h := mid_mem_irrMids (npv_at_rate (-1) [-1, 1] 0) 999 (-0.99) 5
    have : ((-0.99 : ℚ) + 5) / 2 = 401/200 := by norm_num
    rw [this] at h
    exact h
  · have h2big : (599/100 : ℚ) ≤ 2 ^ 1000 := by
      calc (599/100 : ℚ) ≤ 2 ^ 10 := by norm_num
        _ ≤ 2 ^ 1000 := pow_le_pow_right (by norm_num) (by norm_num)
    have hd0 : (0 : ℚ) < 599/100 / 2 ^ 1000 := by positivity
    have hd1 : (599/100 : ℚ) / 2 ^ 1000 ≤ 1 := by
      rw [div_le_one (by positivity)]
      exact h2big
    have h1r : (5 : ℚ) ≤ 1 + (5 - 599/100 / 2 ^ 1000) := by linarith
    have hrpos : (0 : ℚ) < 1 + (5 - 599/100 / 2 ^ 1000) := by linarith
    have hx : (1 + ((5 : ℚ) - 599/100 / 2 ^ 1000))⁻¹ ≤ 1/5 := by
      have := inv_le_inv_of_le (by norm_num : (0:ℚ) < 5) h1r
      simpa using this
    have hx0 : (0 : ℚ) < (1 + ((5 : ℚ) - 599/100 / 2 ^ 1000))⁻¹ := inv_pos.2 hrpos
    rw [npv7_eq, npv7_eq]
    have hlit : (1 + (401/200 : ℚ))⁻¹ = 200/601 := by norm_num
    rw [hlit]
    rw [abs_of_pos (by norm_num),
      abs_of_pos (by nlinarith [sq_nonneg ((1 + ((5:ℚ) - 599/100 / 2 ^ 1000))⁻¹ - 1/2)])]
    nlinarith [mul_nonneg
      (by linarith : (0:ℚ) ≤ 1/5 - (1 + ((5:ℚ) - 599/100 / 2 ^ 1000))⁻¹)
      (by linarith : (0:ℚ) ≤ 4/5 - (1 + ((5:ℚ) - 599/100 / 2 ^ 1000))⁻¹)]

/-- C7 (amended): the bisection loop always terminates, visiting at
most 1000 midpoints; if some visited midpoint meets the `1e-4` NPV
tolerance the result is such a midpoint times 100; otherwise the
result is the LAST visited midpoint times 100 (not necessarily the
best one), returned as a plain number with no approximate flag. -/
theorem calculate_irr_iteration_spec (init : ℚ) (cfs : List ℚ) (tv : ℚ) :
    calcIrrMids init cfs tv ≠ [] ∧
    (calcIrrMids init cfs tv).length ≤ 1000 ∧
    ((∃ m ∈ calcIrrMids init cfs tv, |npv_at_rate init cfs tv m| < (0.0001 : ℚ)) →
      ∃ m ∈ calcIrrMids init cfs tv, |npv_at_rate init cfs tv m| < (0.0001 : ℚ) ∧
        calculate_irr init cfs tv = m * 100) ∧
    ((∀ m ∈ calcIrrMids init cfs tv, ¬ |npv_at_rate init cfs tv m| < (0.0001 : ℚ)) →
      calculate_irr init cfs tv
        = ((calcIrrMids init cfs tv).getLast?.getD 0) * 100) :=
  ⟨irrMids_ne_nil _ _ _ _, irrMids_length_le _ _ _ _,
    (irrGo_result_char _ 999 _ _).1, (irrGo_result_char _ 999 _ _).2⟩

/-- Witness for C7's amended theorem: at the stream `(0, [], 0)` the
NPV is identically zero, the first midpoint meets the tolerance, and
the loop returns it times 100. -/
theorem calculate_irr_iteration_spec_witness :
    calculate_irr 0 [] 0 = 401/200 * 100 ∧ calcIrrMids 0 [] 0 = [401/200] := by
  obtain ⟨m, hm, _, heq⟩ := (calculate_irr_iteration_spec 0 [] 0).2.2.1 (by decide)
  have hmids : calcIrrMids 0 [] 0 = [401/200] := by decide
  rw [hmids] at hm
  simp only [List.mem_singleton] at hm
  exact ⟨hm ▸ heq, hmids⟩

/-!
Concrete engine inputs.  The purchase prices `pd1`/`pd3` are chosen to
make the NPV vanish exactly at the first bisection midpoint, so the
IRR loop of a fully evaluated run converges immediately; this only
matters for the cost of `decide`, not for any property being proved.
-/

/-- Junk default used only to name the payload of a `some` result. -/
def mjunk : Metrics :=
  { annual_cash_flows := [], cash_flow_pvs := [], total_return := 0,
    return_to_invest := 0, pv_cash_flow := 0, pv_net_sales := 0, total_pv := 0,
    npv := 0, pct_pv_income := 0, pct_pv_sales := 0, irr := 0, exit_noi := 0,
    net_sale_price := 0 }

/-- A lease whose expiry falls well beyond the 10-year horizon. -/
def ld1 : LeaseData :=
  { area_sf := 10
    current_annual_rent := 10
    escalation_rate := 0
    lease_start_ord := cfStartOrd - 100
    lease_end_ord := cfStartOrd + 5000
    year1_starting_rent := some 10
    use_fractional_escalation := false }

/-- Simple assumption set: zero discounting, 50% exit cap. -/
def asm1 : Assumptions :=
  { valuation_year := 2026
    discount_rate := 0
    exit_cap_rate := 1/2
    renewal_probability := 17/20
    market_rent_psf := 1
    adjusted_market_rent_psf := none
    market_escalation_rate := 0
    vacancy_months := 8
    tenant_improvements_psf := 5
    leasing_commission_year1_pct := 2/25 }

/-- Purchase price equal to the stream's PV at the first bisection
midpoint, so the IRR search converges in one iteration. -/
def pd1 : PropertyData :=
  { purchase_price :=
      npv_at_rate 0 (annualCashFlows f0 ld1 asm1) (netSalePrice f0 ld1 asm1) (401/200) }

/-- The metrics record produced by the engine on `(pd1, ld1, asm1)`. -/
def m1 : Metrics := (calculate_return_metrics f0 pd1 ld1 asm1).getD mjunk

/-- A second property with a plain unit purchase price. -/
def pd2 : PropertyData := { purchase_price := 1 }

/-- The metrics record produced by the engine on `(pd2, ld1, asm1)`. -/
def m2 : Metrics := (calculate_return_metrics f0 pd2 ld1 asm1).getD mjunk

/-!
C1: the source computes `pct_pv_income = (pv_cash_flow / total_pv) * 100`
and `pct_pv_sales = (pv_net_sales / total_pv) * 100` — percentages that
sum to 100, not fractions that sum to 1.
-/

/-- C1 counterexample: a concrete successful run with nonzero
`total_pv` on which the returned `pct_pv_income` differs from
`pv_cash_flow / total_pv` (it is 100 times it) and the two returned
percentage fields do not sum to `1`. -/
theorem pct_pv_fraction_counterexample :
    (calculate_return_metrics f0 pd2 ld1 asm1).isSome = true ∧
    m2.total_pv ≠ 0 ∧
    m2.pct_pv_income ≠ m2.pv_cash_flow / m2.total_pv ∧
    m2.pct_pv_income + m2.pct_pv_sales ≠ 1 := by
  refine ⟨by decide, by decide, by decide, by decide⟩

/-- C1 (amended): on every successful run `total_pv` is nonzero (a
zero `total_pv` raises and yields no result), the returned PV-split
fields equal the corresponding PV ratios times 100, and they sum
exactly to 100. -/
theorem pct_pv_decomposition_percent (fpow : ℚ → ℚ → ℚ) (pd : PropertyData)
    (ld : LeaseData) (asm : Assumptions) (m : Metrics)
    (h : calculate_return_metrics fpow pd ld asm = some m) :
    m.total_pv ≠ 0 ∧
    m.pct_pv_income = m.pv_cash_flow / m.total_pv * 100 ∧
    m.pct_pv_sales = m.pv_net_sales / m.total_pv * 100 ∧
    m.pct_pv_income + m.pct_pv_sales = 100 := by
  unfold calculate_return_metrics at h
  split_ifs at h with h1 h2 h3 h4 h5
  rw [Option.some.injEq] at h
  subst h
  refine ⟨h5, rfl, rfl, ?_⟩
  have hsum : pvCashFlow fpow ld asm + pvNetSales fpow ld asm = totalPv fpow ld asm := rfl
  show pvCashFlow fpow ld asm / totalPv fpow ld asm * 100
    + pvNetSales fpow ld asm / totalPv fpow ld asm * 100 = 100
  field_simp
  linarith [hsum]

/-- Witness for C1's amended theorem on a concrete successful run. -/
theorem pct_pv_decomposition_percent_witness :
    calculate_return_metrics f0 pd1 ld1 asm1 = some m1 ∧
    m1.pct_pv_income + m1.pct_pv_sales = 100 :=
  have h : calculate_return_metrics f0 pd1 ld1 asm1 = some m1 := by decide
  ⟨h, (pct_pv_decomposition_percent f0 pd1 ld1 asm1 m1 h).2.2.2⟩

/-!
C3: the source performs no input validation whatsoever: inverted lease
dates are accepted silently and produce a complete result; a zero exit
cap rate or purchase price is not rejected up front but raises a
`ZeroDivisionError` at the division that uses it.
-/

/-- A lease with strictly inverted dates (`lease_end` before
`lease_start`). -/
def ldc : LeaseData :=
  { area_sf := 10
    current_annual_rent := 10
    escalation_rate := 0
    lease_start_ord := cfStartOrd - 1000
    lease_end_ord := cfStartOrd - 2000
    year1_starting_rent := none
    use_fractional_escalation := false }

/-- A property with purchase price 2. -/
def pdc : PropertyData := { purchase_price := 2 }

/-- C3 counterexample: on a concrete input whose `lease_end` precedes
its `lease_start` the engine does not fail with a validation error: it
returns a complete metrics record. -/
theorem validation_claim_counterexample :
    ldc.lease_end_ord < ldc.lease_start_ord ∧
    (calculate_return_metrics f0 pdc ldc asm1).isSome = true := by
  constructor <;> decide

/-- C3 (amended): the engine validates nothing.  A zero
`exit_cap_rate` or a zero `purchase_price` makes the run fail at the
division that uses it (no result, but also no up-front named-field
rejection), while inverted lease dates are accepted silently: whenever
the zero-division guards pass, the run succeeds even though
`lease_end ≤ lease_start`. -/
theorem no_validation_amended (fpow : ℚ → ℚ → ℚ) (pd : PropertyData)
    (ld : LeaseData) (asm : Assumptions) :
    (asm.exit_cap_rate = 0 → calculate_return_metrics fpow pd ld asm = none) ∧
    (pd.purchase_price = 0 → calculate_return_metrics fpow pd ld asm = none) ∧
    (ld.lease_end_ord ≤ ld.lease_start_ord →
      1 + ld.escalation_rate ≠ 0 → 1 + asm.discount_rate ≠ 0 →
      asm.exit_cap_rate ≠ 0 → pd.purchase_price ≠ 0 →
      totalPv fpow ld asm ≠ 0 →
      (calculate_return_metrics fpow pd ld asm).isSome = true) := by
  refine ⟨?_, ?_, ?_⟩
  · intro hc
    simp only [calculate_return_metrics, hc]
    split_ifs <;> rfl
  · intro hp
    simp only [calculate_return_metrics, hp]
    split_ifs <;> rfl
  · intro _ hesc hdr hcap hprice htpv
    unfold calculate_return_metrics
    rw [if_neg (fun hcon => hesc hcon.2.1), if_neg hdr, if_neg hcap, if_neg hprice,
      if_neg htpv]
    rfl

/-- Witness for C3's amended theorem: a concrete degenerate-date input
on which all guard hypotheses hold and the engine indeed succeeds. -/
theorem no_validation_witness :
    ldc.lease_end_ord ≤ ldc.lease_start_ord ∧
    (calculate_return_metrics f0 pd2 ldc asm1).isSome = true :=
  ⟨by decide,
    (no_validation_amended f0 pd2 ldc asm1).2.2 (by decide) (by decide)
      (by decide) (by decide) (by decide) (by decide)⟩

/-!
C10: the only normal return of `calculate_return_metrics` is the
13-field record `Metrics` (there is no `error` or `needs_input` field
in it, so the caller's `needs_input` branch in `api.py` can never
fire), and both cash-flow lists always have exactly 10 entries.
-/

/-- A lease whose expiry lands inside the horizon (`expiry_year = 5`). -/
def ld3 : LeaseData :=
  { area_sf := 10
    current_annual_rent := 10
    escalation_rate := 0
    lease_start_ord := cfStartOrd - 100
    lease_end_ord := cfStartOrd + 1500
    year1_starting_rent := some 10
    use_fractional_escalation := false }

/-- Purchase price making the IRR search on the `ld3` stream converge
at the first midpoint. -/
def pd3 : PropertyData :=
  { purchase_price :=
      npv_at_rate 0 (annualCashFlows f0 ld3 asm1) (netSalePrice f0 ld3 asm1) (401/200) }

/-- The metrics record produced by the engine on `(pd3, ld3, asm1)`. -/
def m3 : Metrics := (calculate_return_metrics f0 pd3 ld3 asm1).getD mjunk

/-- C10: every successful run returns the full 13-field metrics record
(the structure `Metrics` mirrors the literal dict of the source, which
has no error marker of any kind) with both per-year lists of length
exactly 10. -/
theorem metrics_shape (fpow : ℚ → ℚ → ℚ) (pd : PropertyData)
    (ld : LeaseData) (asm : Assumptions) (m : Metrics)
    (h : calculate_return_metrics fpow pd ld asm = some m) :
    m.annual_cash_flows.length = 10 ∧ m.cash_flow_pvs.length = 10 := by
  unfold calculate_return_metrics at h
  split_ifs at h
  rw [Option.some.injEq] at h
  subst h
  exact ⟨rfl, rfl⟩

/-- Witness for C10 on a concrete successful run whose lease expires
inside the horizon. -/
theorem metrics_shape_witness :
    calculate_return_metrics f0 pd3 ld3 asm1 = some m3 ∧
    m3.annual_cash_flows.length = 10 ∧ m3.cash_flow_pvs.length = 10 :=
  have h : calculate_return_metrics f0 pd3 ld3 asm1 = some m3 := by decide
  ⟨h, metrics_shape f0 pd3 ld3 asm1 m3 h⟩

/-!
C4: the non-fractional escalation branch uses Python `int()`, which
truncates toward zero — for a lease starting after the analysis-start
date (`years_elapsed < 0`) the exponent is the ceiling, not the floor,
of `years_elapsed`.
-/

/-- A lease that starts 181 days after the analysis anchor, so
`years_elapsed ∈ (-1, 0)`. -/
def ld4 : LeaseData :=
  { area_sf := 10
    current_annual_rent := 100
    escalation_rate := 3/100
    lease_start_ord := cfStartOrd + 181
    lease_end_ord := cfStartOrd + 5000
    year1_starting_rent := none
    use_fractional_escalation := false }

/-- C4 counterexample: with `years_elapsed ≈ -0.496` the engine keeps
the full base rent (`int` truncates to 0), whereas the claimed
floor-exponent formula would de-escalate it by one year. -/
theorem start_rent_floor_counterexample :
    years_elapsed ld4 < 0 ∧
    current_rent f0 ld4 = 100 ∧
    current_rent f0 ld4
      ≠ ld4.current_annual_rent * (1 + ld4.escalation_rate) ^ ⌊years_elapsed ld4⌋ := by
  refine ⟨by decide, by decide, by decide⟩

/-- C4 (amended): the analysis-start rent is the override verbatim
when present; otherwise the float power of `(1 + escalation_rate)` and
the raw `years_elapsed` in the fractional mode; otherwise the
integer-exponent escalation with the exponent truncated toward zero —
i.e. `⌊years_elapsed⌋` when `years_elapsed ≥ 0` but `⌈years_elapsed⌉`
(not the floor) when it is negative. -/
theorem start_rent_spec (fpow : ℚ → ℚ → ℚ) (ld : LeaseData) :
    (∀ r, ld.year1_starting_rent = some r → current_rent fpow ld = r) ∧
    (ld.year1_starting_rent = none → ld.use_fractional_escalation = true →
      current_rent fpow ld
        = ld.current_annual_rent * fpow (1 + ld.escalation_rate) (years_elapsed ld)) ∧
    (ld.year1_starting_rent = none → ld.use_fractional_escalation = false →
      (0 ≤ years_elapsed ld →
        current_rent fpow ld
          = ld.current_annual_rent * (1 + ld.escalation_rate) ^ ⌊years_elapsed ld⌋) ∧
      (years_elapsed ld < 0 →
        current_rent fpow ld
          = ld.current_annual_rent * (1 + ld.escalation_rate) ^ ⌈years_elapsed ld⌉)) := by
  refine ⟨?_, ?_, ?_⟩
  · intro r hr
    unfold current_rent
    rw [hr]
  · intro h1 h2
    unfold current_rent
    rw [h1, h2]
    rfl
  · intro h1 h2
    constructor
    · intro hpos
      unfold current_rent
      rw [h1, h2]
      show ld.current_annual_rent * (1 + ld.escalation_rate) ^ pytrunc (years_elapsed ld) = _
      rw [pytrunc_eq_floor _ hpos]
    · intro hneg
      unfold current_rent
      rw [h1, h2]
      show ld.current_annual_rent * (1 + ld.escalation_rate) ^ pytrunc (years_elapsed ld) = _
      rw [pytrunc_eq_ceil _ hneg]

/-- Witness for C4's amended theorem: the override branch on `ld1` and
the negative-elapsed truncation branch on `ld4`. -/
theorem start_rent_spec_witness :
    current_rent f0 ld1 = 10 ∧
    years_elapsed ld4 < 0 ∧
    current_rent f0 ld4
      = ld4.current_annual_rent * (1 + ld4.escalation_rate) ^ ⌈years_elapsed ld4⌉ :=
  ⟨(start_rent_spec f0 ld1).1 10 rfl, by decide,
    ((start_rent_spec f0 ld4).2.2 rfl rfl).2 (by decide)⟩

/-!
C5: the projection anchor is the hard-coded constant
`datetime(2026, 1, 1)`; the valuation date in the assumptions is never
read by `calculate_return_metrics`, so the anchor is not January 1 of
the year following the valuation date (nor any function of it).
-/

/-- The engine's result does not depend on the valuation year at
all. -/
theorem calc_ignores_valuation_year (fpow : ℚ → ℚ → ℚ) (pd : PropertyData)
    (ld : LeaseData) (asm : Assumptions) (v : ℤ) :
    calculate_return_metrics fpow pd ld { asm with valuation_year := v }
      = calculate_return_metrics fpow pd ld asm := rfl

/-- C5 counterexample: for the valuation year 2026 the spec's anchor
(January 1 of the FOLLOWING year) differs from the engine's hard-coded
anchor, and on a concrete input the engine's entire output is
unchanged when the valuation year moves from 2026 to 2030 — the
anchor is not a function of the valuation date. -/
theorem analysis_start_claim_counterexample :
    specAnalysisStartOrd 2026 ≠ cfStartOrd ∧
    calculate_return_metrics f0 pd2 ld1 { asm1 with valuation_year := 2026 }
      = calculate_return_metrics f0 pd2 ld1 { asm1 with valuation_year := 2030 } :=
  ⟨by decide,
    (calc_ignores_valuation_year f0 pd2 ld1 asm1 2026).trans
      (calc_ignores_valuation_year f0 pd2 ld1 asm1 2030).symm⟩

/-- C5 (amended): the analysis-start date used by the cash-flow
projector is the constant January 1, 2026; the result of the engine is
invariant under every change of the supplied valuation year. -/
theorem analysis_start_constant (fpow : ℚ → ℚ → ℚ) (pd : PropertyData)
    (ld : LeaseData) (asm : Assumptions) (v w : ℤ) :
    cfStartOrd = yearStartOrd 2026 ∧
    calculate_return_metrics fpow pd ld { asm with valuation_year := v }
      = calculate_return_metrics fpow pd ld { asm with valuation_year := w } :=
  ⟨rfl,
    (calc_ignores_valuation_year fpow pd ld asm v).trans
      (calc_ignores_valuation_year fpow pd ld asm w).symm⟩

/-!
C6: vacancy loss and leasing costs (TI + commission) are confined to
the expiry year, with exactly the claimed formulas there.
-/

/-- C6: in every projection year other than the expiry year both the
vacancy loss and the total leasing cost are zero; in the expiry year
they equal the claimed probability-weighted formulas. -/
theorem vacancy_and_leasing_confinement (fpow : ℚ → ℚ → ℚ) (ld : LeaseData)
    (asm : Assumptions) (y : ℤ) (h1 : 1 ≤ y) (h10 : y ≤ 10) :
    (y ≠ expiry_year ld →
      vacancyLoss fpow ld asm y = 0 ∧ totalLeasingCosts fpow ld asm y = 0) ∧
    (y = expiry_year ld →
      vacancyLoss fpow ld asm y
        = annualRent fpow ld asm y * (asm.vacancy_months / 12)
          * (1 - asm.renewal_probability) ∧
      totalLeasingCosts fpow ld asm y
        = asm.tenant_improvements_psf * ld.area_sf * (1 - asm.renewal_probability)
          + annualRent fpow ld asm y * asm.leasing_commission_year1_pct) := by
  constructor
  · intro hne
    unfold vacancyLoss totalLeasingCosts tiCosts lcYear1
    rw [if_neg hne, if_neg hne, if_neg hne]
    norm_num
  · intro heq
    unfold vacancyLoss totalLeasingCosts tiCosts lcYear1
    rw [if_pos heq, if_pos heq, if_pos heq]
    exact ⟨by ring, rfl⟩

/-- Witness for C6 at a non-expiry year of a lease expiring in year 5
of the horizon. -/
theorem vacancy_and_leasing_confinement_witness :
    vacancyLoss f0 ld3 asm1 3 = 0 ∧ totalLeasingCosts f0 ld3 asm1 3 = 0 :=
  (vacancy_and_leasing_confinement f0 ld3 asm1 3 (by decide) (by decide)).1 (by decide)

/-!
C8: under a positive escalation rate and a lease running past the
horizon, the per-year rent grows strictly — PROVIDED the computed
analysis-start rent is positive; a zero (or negative) base rent breaks
the claimed strict inequality.
-/

/-- A lease with zero base rent but positive escalation, expiring far
beyond the horizon. -/
def ld8 : LeaseData :=
  { area_sf := 10
    current_annual_rent := 0
    escalation_rate := 3/100
    lease_start_ord := cfStartOrd - 100
    lease_end_ord := cfStartOrd + 5000
    year1_starting_rent := none
    use_fractional_escalation := false }

/-- C8 counterexample: with a zero base rent every projected rent is
zero, so `rent(2) > rent(1)` fails although `escalation_rate > 0` and
the lease expires after the horizon. -/
theorem escalation_monotonicity_counterexample :
    (0 : ℚ) < ld8.escalation_rate ∧
    11 ≤ expiry_year ld8 ∧
    ¬ (annualRent f0 ld8 asm1 1 < annualRent f0 ld8 asm1 2) := by
  refine ⟨by decide, by decide, by decide⟩

/-- C8 (amended): if the computed analysis-start rent is positive, the
escalation rate is positive, and the lease expiry year is at or past
year 11, then the potential rent increases strictly from each horizon
year to the next. -/
theorem escalation_monotonicity (fpow : ℚ → ℚ → ℚ) (ld : LeaseData)
    (asm : Assumptions) (hs : 0 < current_rent fpow ld)
    (he : 0 < ld.escalation_rate) (hexp : 11 ≤ expiry_year ld) :
    ∀ y : ℤ, 1 ≤ y → y ≤ 10 →
      annualRent fpow ld asm y < annualRent fpow ld asm (y + 1) := by
  intro y _ h10
  have hy : y ≤ expiry_year ld := by linarith
  have hy1 : y + 1 ≤ expiry_year ld := by linarith
  unfold annualRent
  rw [if_pos hy, if_pos hy1]
  have hb : (1 : ℚ) < 1 + ld.escalation_rate := by linarith
  exact mul_lt_mul_of_pos_left
    (zpow_lt_zpow_right₀ hb (by linarith : y - 1 < y + 1 - 1)) hs

/-- A positively escalating lease with an explicit year-1 rent and an
expiry beyond the horizon. -/
def ld6 : LeaseData := { ld1 with escalation_rate := 3/100 }

/-- Witness for C8's amended theorem. -/
theorem escalation_monotonicity_witness :
    annualRent f0 ld6 asm1 4 < annualRent f0 ld6 asm1 5 :=
  escalation_monotonicity f0 ld6 asm1 (by decide) (by decide) (by decide)
    4 (by decide) (by decide)

/-!
C9: a lease that ended more than 365.25 days before the analysis start
gets `expiry_year ≤ 0`: every horizon year is then past the expiry
year, so it is priced on the market-lease formulas, with zero vacancy
loss, zero TI and zero commission everywhere — and the engine happily
returns a full result instead of rejecting the stale lease.
-/

/-- C9: for a lease already expired more than a year before the
analysis-start date, the expiry year is at most 0, every projection
year lies strictly after it (the market-lease regime), all turnover
costs vanish, and (when the zero-division guards pass) the run still
succeeds. -/
theorem expired_lease_projection (fpow : ℚ → ℚ → ℚ) (pd : PropertyData)
    (ld : LeaseData) (asm : Assumptions)
    (hold : (365.25 : ℚ) < ((cfStartOrd - ld.lease_end_ord : ℤ) : ℚ)) :
    expiry_year ld ≤ 0 ∧
    (∀ y : ℤ, 1 ≤ y → y ≤ 10 →
      expiry_year ld < y ∧ vacancyLoss fpow ld asm y = 0 ∧
      tiCosts ld asm y = 0 ∧ lcYear1 fpow ld asm y = 0) ∧
    (1 + ld.escalation_rate ≠ 0 → 1 + asm.discount_rate ≠ 0 →
      asm.exit_cap_rate ≠ 0 → pd.purchase_price ≠ 0 →
      totalPv fpow ld asm ≠ 0 →
      (calculate_return_metrics fpow pd ld asm).isSome = true) := by
  have hyte : years_to_expiry ld < -1 := by
    unfold years_to_expiry
    rw [div_lt_iff (by norm_num : (0 : ℚ) < (365.25 : ℚ))]
    have hcast : ((ld.lease_end_ord - cfStartOrd : ℤ) : ℚ)
        = -((cfStartOrd - ld.lease_end_ord : ℤ) : ℚ) := by
      push_cast
      ring
    rw [hcast]
    linarith
  have hexp : expiry_year ld ≤ 0 := by
    have := pytrunc_le_neg_one _ hyte
    unfold expiry_year
    omega
  refine ⟨hexp, ?_, ?_⟩
  · intro y hy1 _
    have hlt : expiry_year ld < y := by omega
    have hne : y ≠ expiry_year ld := by omega
    refine ⟨hlt, ?_, ?_, ?_⟩
    · unfold vacancyLoss
      rw [if_neg hne]
    · unfold tiCosts
      rw [if_neg hne]
    · unfold lcYear1
      rw [if_neg hne]
  · intro hesc hdr hcap hprice htpv
    unfold calculate_return_metrics
    rw [if_neg (fun hcon => hesc hcon.2.1), if_neg hdr, if_neg hcap, if_neg hprice,
      if_neg htpv]
    rfl

/-- A lease that ended 400 days before the analysis anchor. -/
def ld9 : LeaseData :=
  { area_sf := 10
    current_annual_rent := 10
    escalation_rate := 0
    lease_start_ord := cfStartOrd - 3000
    lease_end_ord := cfStartOrd - 400
    year1_starting_rent := none
    use_fractional_escalation := false }

/-- Witness for C9 on a concrete stale lease: the expiry year is
nonpositive, year 7 carries no vacancy loss, and the run succeeds. -/
theorem expired_lease_projection_witness :
    expiry_year ld9 ≤ 0 ∧ vacancyLoss f0 ld9 asm1 7 = 0 ∧
    (calculate_return_metrics f0 pd2 ld9 asm1).isSome = true :=
  have h := expired_lease_projection f0 pd2 ld9 asm1 (by decide)
  ⟨h.1, (h.2.1 7 (by decide) (by decide)).2.1,
    h.2.2 (by decide) (by decide) (by decide) (by decide) (by decide)⟩
